import Mathlib

/-!
Shallow embedding of the wgpu-foray repository (src/colors.rs and
src/main.rs) and verification of its specification claims.

Modelling conventions:
* Rust `f64` values are modelled as rationals (`ℚ`); all arithmetic the
  claims mention (division by a positive dimension, averaging, comparison
  against 0 and 1) is exact at the inputs the claims name, so the rational
  model agrees with IEEE double there.
* Rust `i32` is modelled as `Int`, `u32` as `Nat`; the cast `as u32`
  applied to a positive `i32` is `Int.toNat`.
* Opaque GPU handles (texture formats, present modes, pipelines, views)
  are modelled as `Nat` identifiers; the code never inspects them.
* A panic (`expect`) is modelled as `none` / a `panicked` flag; the GPU
  command stream recorded by an encoder is modelled as an explicit list
  of render-pass records.
-/

namespace WgpuForay

/-- `RgbaColor` from src/colors.rs: a tuple struct of four `f64` channels,
modelled as four rational fields. -/
structure RgbaColor where
  c0 : ℚ
  c1 : ℚ
  c2 : ℚ
  c3 : ℚ
deriving DecidableEq, Repr

/-- The closure named `is_invalid` inside `RgbaColor::new`
(src/colors.rs lines 17-23), translated literally: it returns `false`
when `0.0 > x || x > 1.0` and `true` otherwise (so, despite its name, it
returns `true` exactly on in-range channels). -/
def RgbaColor.is_invalid (x : ℚ) : Bool :=
  if 0 > x ∨ x > 1 then false else true

/-- `RgbaColor::new` (src/colors.rs lines 3-34), translated literally:
`proceed` is `any` of `is_invalid` over the four channels, and the
constructor returns `Some` exactly when `proceed` holds. The generic
`Into<f64>` conversions are modelled by taking the four channels already
as rationals. -/
def RgbaColor.new (r g b a : ℚ) : Option RgbaColor :=
  let proceed := [r, g, b, a].any (fun x => RgbaColor.is_invalid x)
  if proceed then some ⟨r, g, b, a⟩ else none

/-- Accessor `RgbaColor::red` (src/colors.rs line 38). -/
def RgbaColor.red (c : RgbaColor) : ℚ := c.c0

/-- Accessor `RgbaColor::green` (src/colors.rs line 42). -/
def RgbaColor.green (c : RgbaColor) : ℚ := c.c1

/-- Accessor `RgbaColor::blue` (src/colors.rs line 46). -/
def RgbaColor.blue (c : RgbaColor) : ℚ := c.c2

/-- Accessor `RgbaColor::alpha` (src/colors.rs line 50). -/
def RgbaColor.alpha (c : RgbaColor) : ℚ := c.c3

/-- `wgpu::SurfaceConfiguration` as populated in `State::new`
(src/main.rs lines 75-84): usage, format, present mode and alpha mode are
opaque handles chosen at initialization; width and height are `u32`. -/
structure SurfaceConfiguration where
  usage : Nat
  format : Nat
  width : Nat
  height : Nat
  present_mode : Nat
  alpha_mode : Nat
  view_formats : List Nat
  desired_maximum_frame_latency : Nat
deriving DecidableEq, Repr

/-- The mutable-state portion of `State` (src/main.rs lines 17-25) that the
claims concern: the swapchain configuration, the stored logical size
(`(i32, i32)` from glfw), and the configuration currently applied to the
surface (the argument of the last `surface.configure` call). -/
structure State where
  config : SurfaceConfiguration
  size : Int × Int
  surface_applied : SurfaceConfiguration
deriving DecidableEq, Repr

/-- `State::resize` (src/main.rs lines 200-207), translated literally: when
both components of `new_size` are positive it stores the new size, writes
the two dimensions (cast `as u32`) into the configuration and reapplies the
configuration to the surface; otherwise it does nothing. -/
def State.resize (s : State) (new_size : Int × Int) : State :=
  if 0 < new_size.1 ∧ 0 < new_size.2 then
    let config :=
      { s.config with width := new_size.1.toNat, height := new_size.2.toNat }
    { s with size := new_size, config := config, surface_applied := config }
  else s

/-- A concrete initial state mirroring `State::new` for the 800×600 window
created in `run` (src/main.rs lines 75-86, 327): usage
`RENDER_ATTACHMENT` (bit value 16), an arbitrary sRGB format handle, the
first supported present and alpha modes as handle 0, empty view formats,
frame latency 2. -/
def initialConfig : SurfaceConfiguration :=
  { usage := 16, format := 1, width := 800, height := 600,
    present_mode := 0, alpha_mode := 0, view_formats := [],
    desired_maximum_frame_latency := 2 }

/-- The state right after `State::new` on the 800×600 window: the initial
configuration has been applied to the surface (src/main.rs line 86). -/
def initialState : State :=
  { config := initialConfig, size := (800, 600), surface_applied := initialConfig }

/-- `wgpu::Color`: the four `f64` channels handed to a clear operation
(`last_color` in `run`), modelled over ℚ. -/
structure GpuColor where
  r : ℚ
  g : ℚ
  b : ℚ
  a : ℚ
deriving DecidableEq, Repr

/-- `wgpu::LoadOp` for a color attachment: clear to a color, or load the
existing contents. -/
inductive LoadOp where
  | Clear (c : GpuColor)
  | Load
deriving DecidableEq, Repr

/-- `wgpu::StoreOp` for a color attachment. -/
inductive StoreOp where
  | Store
  | Discard
deriving DecidableEq, Repr

/-- The record accumulated by one `begin_render_pass` ... `drop` scope: the
texture view it targets, the color attachment's load and store operations,
the pipeline bound by `set_pipeline` (if any), and the list of draw calls
issued, each a (vertex count, instance count) pair. -/
structure RenderPassRec where
  view : Nat
  load : LoadOp
  store : StoreOp
  pipeline : Option Nat
  draws : List (Nat × Nat)
deriving DecidableEq, Repr

/-- `encoder.begin_render_pass` over a view with the given operations: a
fresh pass with no pipeline bound and no draws issued. -/
def begin_render_pass (view : Nat) (load : LoadOp) (store : StoreOp) :
    RenderPassRec :=
  { view := view, load := load, store := store, pipeline := none, draws := [] }

/-- `render_pass.set_pipeline`. -/
def RenderPassRec.set_pipeline (p : RenderPassRec) (idx : Nat) : RenderPassRec :=
  { p with pipeline := some idx }

/-- `render_pass.draw(0..vertexCount, 0..instanceCount)`: appends one draw
call to the pass. -/
def RenderPassRec.draw (p : RenderPassRec) (vertexCount instanceCount : Nat) :
    RenderPassRec :=
  { p with draws := p.draws ++ [(vertexCount, instanceCount)] }

/-- A command encoder: the ended render passes recorded so far, in order.
A pass enters this list only through `endPass` (the `drop(render_pass)` in
the source), so every pass in a finished buffer was ended before
`encoder.finish()`. -/
structure CommandEncoder where
  passes : List RenderPassRec
deriving DecidableEq, Repr

/-- `drop(render_pass)`: ends the pass, appending its record to the
encoder. -/
def CommandEncoder.endPass (e : CommandEncoder) (p : RenderPassRec) :
    CommandEncoder :=
  { e with passes := e.passes ++ [p] }

/-- The command buffer produced by `encoder.finish()`. -/
structure CommandBuffer where
  passes : List RenderPassRec
deriving DecidableEq, Repr

/-- `encoder.finish()`. -/
def CommandEncoder.finish (e : CommandEncoder) : CommandBuffer :=
  { passes := e.passes }

/-- The observable outcome of composing one frame: the command buffers
submitted to the queue (in submission order) and whether the acquired
texture was then presented. The source submits `once(encoder.finish())`
and calls `output.present()` after the submit. -/
structure FrameSubmission where
  buffers : List CommandBuffer
  presented : Bool
deriving DecidableEq, Repr

/-- The pipeline-selection conditional used at both composition sites
(src/main.rs lines 402-406 and 483-487): index 1 of `render_pipelines`
when `triangle_toggle` is set, else index 0. -/
def selectedPipeline (triangle_toggle : Bool) : Nat :=
  if triangle_toggle then 1 else 0

/-- The toggle-key transition `triangle_toggle = !triangle_toggle`
(src/main.rs line 368). -/
def toggleSelection (triangle_toggle : Bool) : Bool :=
  !triangle_toggle

/-- The length of the `render_pipelines` vector built in `State::new`
(src/main.rs line 179). -/
def pipelineBankSize : Nat := 2

/-- The two-pass frame composition inlined identically at the space-key
site (src/main.rs lines 370-429) and the cursor-move site (lines 445-510),
translated statement by statement: acquire the texture, create one view
over it, open an encoder; begin a first pass clearing to `last_color` with
store `Store` and drop it with no pipeline and no draw; begin a second pass
over the same view loading the existing contents, bind the selected
pipeline, draw `0..3, 0..1`, drop it; finish the encoder, submit the single
buffer, present. -/
def composeFrame (last_color : GpuColor) (triangle_toggle : Bool) :
    FrameSubmission :=
  let view : Nat := 0
  let encoder : CommandEncoder := { passes := [] }
  let render_pass := begin_render_pass view (LoadOp.Clear last_color) StoreOp.Store
  let encoder := encoder.endPass render_pass
  let render_pipeline := selectedPipeline triangle_toggle
  let render_pass := begin_render_pass view LoadOp.Load StoreOp.Store
  let render_pass := render_pass.set_pipeline render_pipeline
  let render_pass := render_pass.draw 3 1
  let encoder := encoder.endPass render_pass
  { buffers := [encoder.finish], presented := true }

/-- The cursor-move color computation (src/main.rs lines 441-442 and
460-465): normalize the cursor coordinates by the stored window size and
build `last_color` from them. The divisions are performed unconditionally;
`ℚ` division by zero is `0` where IEEE `f64` would give a non-finite value,
and in both models the division happens and the color is rebuilt. -/
def cursorColor (x y : ℚ) (size : Int × Int) : GpuColor :=
  let x_normalized := x / (size.1 : ℚ)
  let y_normalized := y / (size.2 : ℚ)
  { r := x_normalized, g := y_normalized,
    b := (x_normalized + y_normalized) / 2, a := 1 }

/-- The `CursorPos` branch of the event loop (src/main.rs lines 435-511)
restricted to its effect on `last_color`: the previous color is overwritten
unconditionally with `cursorColor` of the event coordinates and the stored
size — there is no guard on the stored dimensions. -/
def cursorPosBranch (x y : ℚ) (s : State) (_last_color : GpuColor) : GpuColor :=
  cursorColor x y s.size

/-- `wgpu::SurfaceError`: the failure cases of per-frame texture
acquisition. -/
inductive SurfaceError where
  | Lost
  | Outdated
  | OutOfMemory
  | Timeout
  | Other
deriving DecidableEq, Repr

/-- What one acquisition attempt leads to, observably: whether the process
panicked, whether the swapchain configuration was reapplied to the surface,
and whether a frame was presented. -/
structure AcquireOutcome where
  panicked : Bool
  reconfigured : Bool
  presented : Bool
deriving DecidableEq, Repr

/-- Per-frame texture acquisition as the live loop performs it
(src/main.rs lines 370-373 and 445-448):
`surface.get_current_texture().expect("Failed to get texture")`. On `Ok`
the frame proceeds through composition and is presented; on any `Err`,
`Lost` and `Outdated` included, the `expect` panics — no reconfiguration
and no recovery occurs. The recovery match that would reapply the
configuration exists only inside a commented-out block
(src/main.rs lines 346-359). -/
def acquireHandling (res : Except SurfaceError Unit) : AcquireOutcome :=
  match res with
  | Except.ok _ => { panicked := false, reconfigured := false, presented := true }
  | Except.error _ => { panicked := true, reconfigured := false, presented := false }

/-- C1: the claim states that `RgbaColor::new` fails whenever at least one
channel lies outside [0,1]. The code violates this at the concrete input
(2, 1/2, 1/2, 1/2): the first channel 2 is outside [0,1], yet construction
succeeds, because the source's inverted `is_invalid` predicate combined
with the `any` quantifier accepts whenever at least one channel is
IN range. -/
theorem C1_out_of_range_construction_succeeds :
    RgbaColor.new 2 (1/2) (1/2) (1/2) = some ⟨2, 1/2, 1/2, 1/2⟩ ∧
    ¬ (0 ≤ (2 : ℚ) ∧ (2 : ℚ) ≤ 1) := by
  constructor
  · norm_num [RgbaColor.new, RgbaColor.is_invalid]
  · norm_num

/-- C6: for all four channels in [0,1], `RgbaColor::new` succeeds and the
four accessors return exactly the stored inputs, with no clamping or
rounding. -/
theorem C6_valid_construction_exact (r g b a : ℚ)
    (hr0 : 0 ≤ r) (hr1 : r ≤ 1) (hg0 : 0 ≤ g) (hg1 : g ≤ 1)
    (hb0 : 0 ≤ b) (hb1 : b ≤ 1) (ha0 : 0 ≤ a) (ha1 : a ≤ 1) :
    ∃ c, RgbaColor.new r g b a = some c ∧
      c.red = r ∧ c.green = g ∧ c.blue = b ∧ c.alpha = a := by
  refine ⟨⟨r, g, b, a⟩, ?_, rfl, rfl, rfl, rfl⟩
  have hr : RgbaColor.is_invalid r = true := by
    have h : ¬ (0 > r ∨ r > 1) := by
      push_neg
      exact ⟨hr0, hr1⟩
    simp [RgbaColor.is_invalid, h]
  simp [RgbaColor.new, hr]

/-- Witness for C6 at the concrete channels (1/2, 0, 1, 1/4). -/
theorem C6_valid_construction_exact_witness :
    ∃ c, RgbaColor.new (1/2) 0 1 (1/4) = some c ∧
      c.red = 1/2 ∧ c.green = 0 ∧ c.blue = 1 ∧ c.alpha = 1/4 :=
  C6_valid_construction_exact (1/2) 0 1 (1/4)
    (by norm_num) (by norm_num) (by norm_num) (by norm_num)
    (by norm_num) (by norm_num) (by norm_num) (by norm_num)

/-- C2: the claim states that on a surface-lost or surface-outdated
acquisition failure the program reapplies the last-known configuration,
skips presenting the frame, and does not terminate. The live code instead
panics through `expect` on both conditions, with no reconfiguration: the
recovery match the claim describes is present only in a commented-out
block. -/
theorem C2_acquisition_failure_panics :
    acquireHandling (Except.error SurfaceError.Lost) =
      { panicked := true, reconfigured := false, presented := false } ∧
    acquireHandling (Except.error SurfaceError.Outdated) =
      { panicked := true, reconfigured := false, presented := false } := by
  exact ⟨rfl, rfl⟩

/-- C3: every composed frame submits exactly one command buffer holding, in
order, exactly two render passes over the same texture view: first a
background pass clearing to the current background color with store
`Store`, no pipeline bound and no draw issued; then a foreground pass
loading the existing contents, binding the currently selected pipeline and
issuing exactly one draw of 3 vertices and 1 instance; both passes were
ended before the encoder was finished (only ended passes enter the buffer),
and the texture is presented after the single submission. -/
theorem C3_two_pass_composition (c : GpuColor) (t : Bool) :
    ∃ cb p0 p1,
      (composeFrame c t).buffers = [cb] ∧
      cb.passes = [p0, p1] ∧
      p0.view = p1.view ∧
      p0.load = LoadOp.Clear c ∧
      p0.store = StoreOp.Store ∧
      p0.pipeline = none ∧
      p0.draws = [] ∧
      p1.load = LoadOp.Load ∧
      p1.store = StoreOp.Store ∧
      p1.pipeline = some (selectedPipeline t) ∧
      p1.draws = [(3, 1)] ∧
      (composeFrame c t).presented = true := by
  exact ⟨_, _, _, rfl, rfl, rfl, rfl, rfl, rfl, rfl, rfl, rfl, rfl, rfl, rfl⟩

/-- C4: for a pointer-move at (x, y) with stored size (w, h), w, h > 0, the
new background color is (x/w, y/h, (x/w + y/h)/2, 1); in particular (0,0)
gives (0,0,0,1), (w,h) gives (1,1,1,1) and (w,0) gives (1,0,1/2,1). -/
theorem C4_cursor_color_formula (x y : ℚ) (w h : Int)
    (hw : 0 < w) (hh : 0 < h) :
    cursorColor x y (w, h) =
      { r := x / (w : ℚ), g := y / (h : ℚ),
        b := (x / (w : ℚ) + y / (h : ℚ)) / 2, a := 1 } ∧
    cursorColor 0 0 (w, h) = { r := 0, g := 0, b := 0, a := 1 } ∧
    cursorColor (w : ℚ) (h : ℚ) (w, h) = { r := 1, g := 1, b := 1, a := 1 } ∧
    cursorColor (w : ℚ) 0 (w, h) = { r := 1, g := 0, b := 1/2, a := 1 } := by
  have hw0 : ((w : ℚ)) ≠ 0 := by
    exact_mod_cast hw.ne'
  have hh0 : ((h : ℚ)) ≠ 0 := by
    exact_mod_cast hh.ne'
  refine ⟨rfl, ?_, ?_, ?_⟩ <;>
    simp [cursorColor, div_self, hw0, hh0]

/-- Witness for C4 at x = 200, y = 150 in an 800×600 window. -/
theorem C4_cursor_color_formula_witness :
    cursorColor 200 150 (800, 600) =
      { r := 200 / ((800 : Int) : ℚ), g := 150 / ((600 : Int) : ℚ),
        b := (200 / ((800 : Int) : ℚ) + 150 / ((600 : Int) : ℚ)) / 2, a := 1 } ∧
    cursorColor 0 0 (800, 600) = { r := 0, g := 0, b := 0, a := 1 } ∧
    cursorColor ((800 : Int) : ℚ) ((600 : Int) : ℚ) (800, 600) =
      { r := 1, g := 1, b := 1, a := 1 } ∧
    cursorColor ((800 : Int) : ℚ) 0 (800, 600) =
      { r := 1, g := 0, b := 1/2, a := 1 } :=
  C4_cursor_color_formula 200 150 800 600 (by norm_num) (by norm_num)

/-- C5: the claim states that a pointer-move with a non-positive stored
width or height skips the color update. The code has no such guard: with
stored size (0, 600) and a pointer-move at (100, 100), the branch divides
by the zero width and overwrites the previous color (here white) with a new
one, so the update is performed, not skipped. -/
theorem C5_zero_width_still_updates :
    cursorPosBranch 100 100
        { config := initialConfig, size := (0, 600),
          surface_applied := initialConfig }
        { r := 1, g := 1, b := 1, a := 1 } =
      { r := 100 / ((0 : Int) : ℚ), g := 1/6, b := (0 + 1/6) / 2, a := 1 } ∧
    cursorPosBranch 100 100
        { config := initialConfig, size := (0, 600),
          surface_applied := initialConfig }
        { r := 1, g := 1, b := 1, a := 1 } ≠
      { r := 1, g := 1, b := 1, a := 1 } := by
  constructor
  · norm_num [cursorPosBranch, cursorColor]
  · norm_num [cursorPosBranch, cursorColor, GpuColor.mk.injEq]

/-- C7: `State::resize` with any non-positive dimension leaves the stored
size, the swapchain configuration, and the configuration applied to the
surface completely unchanged. -/
theorem C7_resize_nonpositive_noop (s : State) (w h : Int)
    (hwh : w ≤ 0 ∨ h ≤ 0) :
    s.resize (w, h) = s := by
  have h1 : ¬ (0 < w ∧ 0 < h) := by
    rcases hwh with hw | hh
    · exact fun hc => absurd hc.1 (not_lt.mpr hw)
    · exact fun hc => absurd hc.2 (not_lt.mpr hh)
  simp [State.resize, h1]

/-- Witness for C7: `resize(0, 600)` on the initial state. -/
theorem C7_resize_nonpositive_noop_witness :
    initialState.resize (0, 600) = initialState :=
  C7_resize_nonpositive_noop initialState 0 600 (Or.inl le_rfl)

/-- C8: for w, h > 0, `State::resize` stores exactly (w, h) as the size and
as the configuration dimensions (under the `as u32` cast of a positive
`i32`), and applying the same resize twice equals applying it once. -/
theorem C8_resize_sets_and_idempotent (s : State) (w h : Int)
    (hw : 0 < w) (hh : 0 < h) :
    (s.resize (w, h)).size = (w, h) ∧
    (s.resize (w, h)).config.width = w.toNat ∧
    (s.resize (w, h)).config.height = h.toNat ∧
    (s.resize (w, h)).resize (w, h) = s.resize (w, h) := by
  simp [State.resize, hw, hh]

/-- Witness for C8: `resize(1024, 768)` on the initial state. -/
theorem C8_resize_sets_and_idempotent_witness :
    (initialState.resize (1024, 768)).size = (1024, 768) ∧
    (initialState.resize (1024, 768)).config.width = (1024 : Int).toNat ∧
    (initialState.resize (1024, 768)).config.height = (768 : Int).toNat ∧
    (initialState.resize (1024, 768)).resize (1024, 768) =
      initialState.resize (1024, 768) :=
  C8_resize_sets_and_idempotent initialState 1024 768 (by norm_num) (by norm_num)

/-- C9: `triangle_toggle = !triangle_toggle` is an involution on the
selection state, and each single toggle flips the selected pipeline index
between the two ends (0 and `pipelineBankSize - 1 = 1`) of the two-element
pipeline bank. -/
theorem C9_toggle_involution_and_flip :
    ∀ t : Bool,
      toggleSelection (toggleSelection t) = t ∧
      selectedPipeline (toggleSelection t) ≠ selectedPipeline t ∧
      (selectedPipeline t = 0 ∨ selectedPipeline t = pipelineBankSize - 1) ∧
      selectedPipeline (toggleSelection t) =
        (pipelineBankSize - 1) - selectedPipeline t := by
  decide

/-- C10: for w, h > 0, `State::resize` changes only the width and height of
the swapchain configuration: format, usage, present mode, alpha mode, view
formats and desired maximum frame latency keep their initialization-time
values across every resize. -/
theorem C10_resize_preserves_other_config_fields (s : State) (w h : Int)
    (hw : 0 < w) (hh : 0 < h) :
    (s.resize (w, h)).config.usage = s.config.usage ∧
    (s.resize (w, h)).config.format = s.config.format ∧
    (s.resize (w, h)).config.present_mode = s.config.present_mode ∧
    (s.resize (w, h)).config.alpha_mode = s.config.alpha_mode ∧
    (s.resize (w, h)).config.view_formats = s.config.view_formats ∧
    (s.resize (w, h)).config.desired_maximum_frame_latency =
      s.config.desired_maximum_frame_latency := by
  simp [State.resize, hw, hh]

/-- Witness for C10: `resize(1024, 768)` on the initial state. -/
theorem C10_resize_preserves_other_config_fields_witness :
    (initialState.resize (1024, 768)).config.usage = initialState.config.usage ∧
    (initialState.resize (1024, 768)).config.format = initialState.config.format ∧
    (initialState.resize (1024, 768)).config.present_mode =
      initialState.config.present_mode ∧
    (initialState.resize (1024, 768)).config.alpha_mode =
      initialState.config.alpha_mode ∧
    (initialState.resize (1024, 768)).config.view_formats =
      initialState.config.view_formats ∧
    (initialState.resize (1024, 768)).config.desired_maximum_frame_latency =
      initialState.config.desired_maximum_frame_latency :=
  C10_resize_preserves_other_config_fields initialState 1024 768
    (by norm_num) (by norm_num)

end WgpuForay
